import Mathlib

set_option maxRecDepth 16384

/-!
Verification of the NileCare chatbot core (RAG-gated prompt composition,
conversation-history bookkeeping, and knowledge-base ingestion).

The development shallowly embeds:
  - `src/chatbot/core.py`          (`Chatbot.process_message`, `Chatbot.reset_conversation`)
  - `src/chatbot/llm_interface.py` (`LLMInterface.generate_response`)
  - `src/rag/vector_db.py`         (`VectorDB.load_knowledge_base`)

Python strings are modelled as Lean `String`; the Python string operations
used by the ingestion code (`str.strip`, `str.split`, `str.join`) are given
structural-recursion implementations over the underlying character list so
that every definition is executable and kernel-reducible.

External collaborators (the Hugging Face text-generation pipeline and the
Chroma-backed retriever) are modelled as function parameters: the pipeline
as `List Turn → Option String` (`none` models an exception raised inside
the `try` block of `generate_response`), the retriever as
`String → List RetrievedDoc` (the query-to-ranked-evidence map; the
retriever module itself is not among the provided sources).
-/

/-! ## Python string primitives -/

/-- Whitespace set of Python `str.strip()` restricted to the ASCII
whitespace characters (space, tab, newline, carriage return, vertical tab,
form feed). -/
def pyIsSpace (c : Char) : Bool :=
  c = ' ' || c = '\t' || c = '\n' || c = '\r' || c = '\x0b' || c = '\x0c'

/-- Python `s.strip()`: drop leading and trailing whitespace. -/
def pyStrip (s : String) : String :=
  String.mk (((s.data.dropWhile pyIsSpace).reverse.dropWhile pyIsSpace).reverse)

/-- Does the second list start with the first one? -/
def startsWithChars : List Char → List Char → Bool
  | [], _ => true
  | _ :: _, [] => false
  | a :: as, b :: bs => a = b && startsWithChars as bs

/-- Worker for `pySplit`, structurally recursive on a fuel argument so the
kernel can evaluate it.  `acc` holds the current group in reverse. -/
def pySplitAux (sep : List Char) : Nat → List Char → List Char → List (List Char)
  | 0, acc, l => [acc.reverse ++ l]
  | fuel + 1, acc, l =>
    if sep ≠ [] && startsWithChars sep l then
      acc.reverse :: pySplitAux sep fuel [] (l.drop sep.length)
    else
      match l with
      | [] => [acc.reverse]
      | c :: rest => pySplitAux sep fuel (c :: acc) rest

/-- Python `s.split(sep)` for a non-empty separator: scan left to right,
cut at each non-overlapping occurrence of `sep`.  `"".split(sep) = [""]`. -/
def pySplit (s sep : String) : List String :=
  (pySplitAux sep.data (s.data.length + 1) [] s.data).map String.mk

/-- Python `"\n".join(parts)`. -/
def pyJoinNL (parts : List String) : String :=
  String.mk (List.intercalate ['\n'] (parts.map String.data))

/-! ## Conversation data model (`core.py`, `llm_interface.py`) -/

/-- Role tag of one chat message (`'role'` key of the Python dicts). -/
inductive Role where
  | user
  | assistant
deriving DecidableEq, Repr

/-- One chat message, the Python dict `{'role': ..., 'content': ...}`. -/
structure Turn where
  role : Role
  content : String
deriving DecidableEq, Repr

/-- One entry of the list returned by `Retriever.retrieve_info`: the core
only reads `content`; `title` is the stored metadata and `similarity` the
score the retriever thresholds on (modelled as a rational). -/
structure RetrievedDoc where
  content : String
  title : String
  similarity : ℚ

/-- The two reachable prompt-construction states of `process_message`:
`grounded` is the branch taken when `retrieved_docs` is non-empty,
`ungrounded` the fallback branch. -/
inductive PromptMode where
  | grounded
  | ungrounded
deriving DecidableEq, Repr

/-- Fallback text returned by `LLMInterface.generate_response` when the
pipeline raises (`except` branch, `llm_interface.py`). -/
def apologyText : String :=
  "Sorry, I am unable to generate a response at this time."

/-- Instruction header of the RAG-augmented prompt (`core.py`, grounded
branch), up to and including the trailing blank line. -/
def groundedInstruction : String :=
  "You are a helpful and informative healthcare chatbot. Using *only* the following information from the knowledge base, answer the user's question concisely and accurately. If the question cannot be answered from the provided information, or if it requires personalized medical advice or diagnosis, state clearly that you don't have enough information to answer that question and strongly suggest consulting a qualified healthcare professional.\n\n"

/-- Instruction header of the general-knowledge fallback prompt (`core.py`,
ungrounded branch), mandating the consult-a-professional disclaimer. -/
def ungroundedInstruction : String :=
  "You are a helpful and informative chatbot. Please answer the user's question to the best of your ability. If the question is about a specific health condition or requires a diagnosis, you must add a disclaimer stating that the information is from your general knowledge and that the user should consult a qualified healthcare professional for an accurate diagnosis.\n\n"

/-- Label preceding the verbatim user question in both prompt templates. -/
def questionLabel : String :=
  "User's Question: "

/-- Opening line of the retrieved-context block. -/
def contextHeader : String :=
  "\n\nRelevant Information from Knowledge Base:\n"

/-- Per-document label written by the enumeration loop of `core.py`
(`i` is the 0-based loop index, printed 1-based). -/
def docLabel (i : Nat) : String :=
  "--- Document " ++ toString (i + 1) ++ " ---\n"

/-- The enumerated loop body of the grounded branch: for each retrieved
document, its label, its `content`, and a newline. -/
def contextLoop : Nat → List RetrievedDoc → String
  | _, [] => ""
  | i, d :: rest => docLabel i ++ d.content ++ "\n" ++ contextLoop (i + 1) rest

/-- `context_str` of `core.py`: header, enumerated documents, final
newline. -/
def contextStr (docs : List RetrievedDoc) : String :=
  contextHeader ++ contextLoop 0 docs ++ "\n"

/-- The `full_prompt` assembled by `process_message`: the branch on
`if retrieved_docs:` selects the RAG-augmented template when the retrieval
result is non-empty and the general-knowledge template otherwise. -/
def composePrompt (userMessage : String) (retrievedDocs : List RetrievedDoc) : String :=
  match retrievedDocs with
  | [] => ungroundedInstruction ++ questionLabel ++ userMessage
  | _ :: _ =>
    groundedInstruction ++ contextStr retrievedDocs ++ questionLabel ++ userMessage

/-- Which template the branch on `if retrieved_docs:` selects. -/
def promptMode : List RetrievedDoc → PromptMode
  | [] => PromptMode.ungrounded
  | _ :: _ => PromptMode.grounded

/-- The message list `LLMInterface.generate_response` hands to the
pipeline: `chat_history + [{'role': 'user', 'content': prompt}]`. -/
def llmMessages (chatHistory : List Turn) (prompt : String) : List Turn :=
  chatHistory ++ [⟨Role.user, prompt⟩]

/-- `LLMInterface.generate_response`: build the message list, run the
pipeline, and on an exception (`none`) return the fixed apology text. -/
def generate_response (pipelineFn : List Turn → Option String)
    (prompt : String) (chatHistory : List Turn) : String :=
  match pipelineFn (llmMessages chatHistory prompt) with
  | some r => r
  | none => apologyText

/-- Observable result of one `Chatbot.process_message` call: the composed
prompt, the message list sent to the model, the returned reply, and the
`chat_history` field after the call. -/
structure StepResult where
  prompt : String
  messagesSent : List Turn
  response : String
  history : List Turn

/-- `Chatbot.process_message`: retrieve evidence for the user message,
compose `full_prompt`, call `generate_response` with the current history,
then append the raw user message and the response to `chat_history`. -/
def process_message (pipelineFn : List Turn → Option String)
    (retrieveFn : String → List RetrievedDoc)
    (chatHistory : List Turn) (userMessage : String) : StepResult :=
  let retrievedDocs := retrieveFn userMessage
  let fullPrompt := composePrompt userMessage retrievedDocs
  let response := generate_response pipelineFn fullPrompt chatHistory
  { prompt := fullPrompt
    messagesSent := llmMessages chatHistory fullPrompt
    response := response
    history := chatHistory ++ [⟨Role.user, userMessage⟩, ⟨Role.assistant, response⟩] }

/-- Fold a list of user messages through `process_message`, threading the
`chat_history` state. -/
def runMessages (pipelineFn : List Turn → Option String)
    (retrieveFn : String → List RetrievedDoc) :
    List Turn → List String → List Turn
  | hist, [] => hist
  | hist, m :: ms =>
    runMessages pipelineFn retrieveFn (process_message pipelineFn retrieveFn hist m).history ms

/-- `Chatbot.reset_conversation`: `self.chat_history = []`. -/
def reset_conversation (_chatHistory : List Turn) : List Turn := []

/-! ## Retriever threshold filter -/

/-- Modelled from the spec: `src/chatbot/rag/retriever.py` (the `Retriever`
class with `retrieve_info`) is not among the provided sources; §4.1 of the
spec states that the retriever asks the store for the nearest chunks,
converts distance to similarity, and "filters out any chunk whose
similarity falls below `minSimilarity`; order is preserved".  `results` is
the ranked nearest-chunk list returned by the store for the query. -/
def retrieve_info (results : List RetrievedDoc) (minSimilarity : ℚ) : List RetrievedDoc :=
  results.filter (fun d => decide (minSimilarity ≤ d.similarity))

/-! ## Knowledge-base ingestion (`vector_db.py`) -/

/-- The three parallel accumulators of `VectorDB.load_knowledge_base`
(`texts`, `metadatas`, `ids`); ids are fresh `uuid4` strings, modelled by
their count. -/
structure KBState where
  texts : List String
  metadatas : List String
  ids : Nat
deriving DecidableEq, Repr

/-- `lines = doc_text.strip().split("\n")`. -/
def recordLines (docText : String) : List String :=
  pySplit (pyStrip docText) "\n"

/-- `title = lines[0].strip() if lines else "Untitled"`. -/
def recordTitle (docText : String) : String :=
  match recordLines docText with
  | [] => "Untitled"
  | t :: _ => pyStrip t

/-- `content = "\n".join(lines[1:]).strip()`. -/
def recordContent (docText : String) : String :=
  pyStrip (pyJoinNL ((recordLines docText).drop 1))

/-- Body of the `for doc_text in documents:` loop of
`load_knowledge_base`: skip blank records, skip records whose content
after the title line is empty, otherwise append content, title metadata
and a fresh id. -/
def processDoc (st : KBState) (docText : String) : KBState :=
  if pyStrip docText = "" then st
  else if recordContent docText = "" then st
  else
    { texts := st.texts ++ [recordContent docText]
      metadatas := st.metadatas ++ [recordTitle docText]
      ids := st.ids + 1 }

/-- `VectorDB.load_knowledge_base` on the raw file text: the collection is
cleared first (empty start state), the text is stripped and split at
`"---"`, and each record runs through the loop body. -/
def load_knowledge_base (rawText : String) : KBState :=
  (pySplit (pyStrip rawText) "---").foldl processDoc ⟨[], [], 0⟩

/-! ## Containment of one text inside another -/

/-- `part` occurs verbatim (contiguously) inside `s`. -/
def containsText (s part : String) : Prop :=
  ∃ pre post, s = pre ++ (part ++ post)

/-! ## Helper lemmas -/

/-- Every document of the retrieval result has its content embedded
verbatim in the enumerated context block. -/
theorem contextLoop_contains (d : RetrievedDoc) :
    ∀ (docs : List RetrievedDoc) (i : Nat), d ∈ docs →
      ∃ pre post, contextLoop i docs = pre ++ (d.content ++ post)
  | [], _, h => absurd h (List.not_mem_nil d)
  | e :: es, i, h => by
    rcases List.mem_cons.mp h with he | hes
    · subst he
      exact ⟨docLabel i, "\n" ++ contextLoop (i + 1) es, by
        simp [contextLoop, String.append_assoc]⟩
    · obtain ⟨pre, post, hp⟩ := contextLoop_contains d es (i + 1) hes
      exact ⟨docLabel i ++ e.content ++ "\n" ++ pre, post, by
        simp [contextLoop, hp, String.append_assoc]⟩

/-- Both prompt templates strictly extend the user message, so the
composed prompt is never the raw user text. -/
theorem composePrompt_ne (msg : String) (docs : List RetrievedDoc) :
    composePrompt msg docs ≠ msg := by
  intro hEq
  have hUI : 0 < ungroundedInstruction.length := by decide
  have hGI : 0 < groundedInstruction.length := by decide
  have hlen := congrArg String.length hEq
  cases docs with
  | nil =>
    simp only [composePrompt, String.length_append] at hlen
    omega
  | cons e es =>
    simp only [composePrompt, String.length_append] at hlen
    omega

/-! ## Claim theorems -/

/-- C1: the claim says a model failure during `process_message` returns the
fixed apology and leaves the history untouched.  The code does return the
apology, but it still appends the user turn and the apology as an
assistant turn: starting from an empty history, a call whose pipeline
raises ends with a two-turn history recording the apology. -/
theorem model_failure_appends_apology_turns :
    (process_message (fun _ => none) (fun _ => []) [] "hello").response = apologyText
    ∧ (process_message (fun _ => none) (fun _ => []) [] "hello").history =
        [⟨Role.user, "hello"⟩, ⟨Role.assistant, apologyText⟩] :=
  ⟨rfl, rfl⟩

/-- C2: for a non-empty retrieval result the grounded template is selected,
the composed prompt contains the restricting instruction, and it contains
every retrieved document's content verbatim. -/
theorem grounded_prompt_contains_evidence (msg : String) (docs : List RetrievedDoc)
    (h : docs ≠ []) :
    promptMode docs = PromptMode.grounded
    ∧ containsText (composePrompt msg docs) groundedInstruction
    ∧ ∀ d ∈ docs, containsText (composePrompt msg docs) d.content := by
  match docs, h with
  | e :: es, _ =>
    refine ⟨rfl, ?_, ?_⟩
    · exact ⟨"", contextStr (e :: es) ++ (questionLabel ++ msg), by
        simp [composePrompt, String.append_assoc]⟩
    · intro d hd
      obtain ⟨pre, post, hp⟩ := contextLoop_contains d (e :: es) 0 hd
      exact ⟨groundedInstruction ++ (contextHeader ++ pre),
             post ++ ("\n" ++ (questionLabel ++ msg)), by
        simp [composePrompt, contextStr, hp, String.append_assoc]⟩

/-- Concrete document for the C2 witness (the scenario of §8 of the spec). -/
def vegDoc : RetrievedDoc := ⟨"Eat vegetables.", "Balanced Diet", 1⟩

/-- C2 witness: the spec's balanced-diet scenario instantiated. -/
theorem grounded_prompt_contains_evidence_witness :
    promptMode [vegDoc] = PromptMode.grounded
    ∧ containsText (composePrompt "Tell me about diet" [vegDoc]) groundedInstruction
    ∧ containsText (composePrompt "Tell me about diet" [vegDoc]) vegDoc.content :=
  have h := grounded_prompt_contains_evidence "Tell me about diet" [vegDoc]
    (List.cons_ne_nil _ _)
  ⟨h.1, h.2.1, h.2.2 vegDoc (List.mem_cons_self vegDoc [])⟩

/-- C3: for an empty retrieval result the ungrounded template is selected,
and the composed prompt contains the general-knowledge disclaimer
instruction and the verbatim user question. -/
theorem ungrounded_prompt_has_disclaimer_and_question (msg : String) :
    promptMode [] = PromptMode.ungrounded
    ∧ containsText (composePrompt msg []) ungroundedInstruction
    ∧ containsText (composePrompt msg []) msg := by
  refine ⟨rfl, ⟨"", questionLabel ++ msg, ?_⟩,
          ⟨ungroundedInstruction ++ questionLabel, "", ?_⟩⟩
  · simp [composePrompt, String.append_assoc]
  · simp [composePrompt, String.append_assoc]

/-- Each `process_message` call grows the history by exactly the pair of
appended turns. -/
theorem runMessages_length (pipelineFn : List Turn → Option String)
    (retrieveFn : String → List RetrievedDoc) :
    ∀ (msgs : List String) (hist : List Turn),
      (runMessages pipelineFn retrieveFn hist msgs).length = hist.length + 2 * msgs.length
  | [], hist => by simp [runMessages]
  | m :: ms, hist => by
    rw [runMessages, runMessages_length pipelineFn retrieveFn ms]
    simp [process_message, List.length_append]
    ring

/-- C4: after any sequence of N `process_message` calls starting from an
empty history, the history length is exactly 2N (hence even after every
completed turn): each call appends one user turn and one assistant turn. -/
theorem history_length_two_per_message (pipelineFn : List Turn → Option String)
    (retrieveFn : String → List RetrievedDoc) (msgs : List String) :
    (runMessages pipelineFn retrieveFn [] msgs).length = 2 * msgs.length
    ∧ Even (runMessages pipelineFn retrieveFn [] msgs).length := by
  have h := runMessages_length pipelineFn retrieveFn msgs []
  simp only [List.length_nil, Nat.zero_add] at h
  exact ⟨h, h ▸ even_two_mul msgs.length⟩

/-- C5 counterexample: the raw user text of an earlier call reaches the
model as a message content of a later call.  After processing the raw
message "I have a headache" (with an always-succeeding pipeline and empty
retrieval), the message list sent to the model by the next call contains a
user turn whose content is exactly that raw text. -/
theorem raw_user_text_reaches_model :
    Turn.mk Role.user "I have a headache" ∈
      (process_message (fun _ => some "OK") (fun _ => [])
        (process_message (fun _ => some "OK") (fun _ => []) [] "I have a headache").history
        "thanks").messagesSent := by
  decide

/-- C5 (amended): in every call the message list passed to the model is
the prior history followed by one user-role turn carrying the composed
prompt; the composed prompt is never the raw user text, so the raw text is
not the content of the newly injected turn — but the call records the raw
user text into history, where later calls will pass it to the model. -/
theorem messages_sent_are_history_plus_composed
    (pipelineFn : List Turn → Option String)
    (retrieveFn : String → List RetrievedDoc)
    (hist : List Turn) (msg : String) :
    (process_message pipelineFn retrieveFn hist msg).messagesSent
      = hist ++ [⟨Role.user, composePrompt msg (retrieveFn msg)⟩]
    ∧ composePrompt msg (retrieveFn msg) ≠ msg
    ∧ (process_message pipelineFn retrieveFn hist msg).history
      = hist ++ [⟨Role.user, msg⟩,
                 ⟨Role.assistant, (process_message pipelineFn retrieveFn hist msg).response⟩] :=
  ⟨rfl, composePrompt_ne msg (retrieveFn msg), rfl⟩

/-- C6: the composed prompt is a pure function of the user message and the
retrieval result — two calls with the same message and the same retrieved
documents produce the identical prompt text, whatever the pipeline and
whatever conversation state each call starts from. -/
theorem prompt_depends_only_on_message_and_evidence
    (pipelineFn₁ pipelineFn₂ : List Turn → Option String)
    (retrieveFn₁ retrieveFn₂ : String → List RetrievedDoc)
    (hist₁ hist₂ : List Turn) (msg₁ msg₂ : String)
    (hmsg : msg₁ = msg₂) (hdocs : retrieveFn₁ msg₁ = retrieveFn₂ msg₂) :
    (process_message pipelineFn₁ retrieveFn₁ hist₁ msg₁).prompt
      = (process_message pipelineFn₂ retrieveFn₂ hist₂ msg₂).prompt := by
  subst hmsg
  simp [process_message, hdocs]

/-- C6 witness: same message and retrieval result, different pipelines and
different prior histories, identical prompt. -/
theorem prompt_depends_only_on_message_and_evidence_witness :
    (process_message (fun _ => some "a") (fun _ => []) [] "hi").prompt
      = (process_message (fun _ => none) (fun _ => [])
          [⟨Role.user, "x"⟩, ⟨Role.assistant, "y"⟩] "hi").prompt :=
  prompt_depends_only_on_message_and_evidence _ _ _ _ _ _ _ _ rfl rfl

/-- C7: `reset_conversation` always yields the empty history, and any
subsequent `process_message` behaves exactly as on a fresh conversation. -/
theorem reset_conversation_fresh (hist : List Turn)
    (pipelineFn : List Turn → Option String)
    (retrieveFn : String → List RetrievedDoc) (msg : String) :
    reset_conversation hist = []
    ∧ process_message pipelineFn retrieveFn (reset_conversation hist) msg
        = process_message pipelineFn retrieveFn [] msg :=
  ⟨rfl, rfl⟩

/-- C8: raising the similarity threshold never increases the number of
chunks the retriever returns for the same ranked store answer. -/
theorem retrieve_info_monotone (results : List RetrievedDoc) (t₁ t₂ : ℚ)
    (h : t₁ ≤ t₂) :
    (retrieve_info results t₂).length ≤ (retrieve_info results t₁).length := by
  induction results with
  | nil => exact Nat.le_refl _
  | cons d rest ih =>
    by_cases h₂ : t₂ ≤ d.similarity
    · have h₁ : t₁ ≤ d.similarity := le_trans h h₂
      simpa [retrieve_info, List.filter_cons, h₁, h₂] using ih
    · by_cases h₁ : t₁ ≤ d.similarity
      · simp only [retrieve_info, List.filter_cons] at ih ⊢
        simp only [h₁, h₂, decide_eq_true_eq, if_true, if_false,
          decide_eq_false_iff_not, List.length_cons]
        exact le_trans ih (Nat.le_succ _)
      · simpa [retrieve_info, List.filter_cons, h₁, h₂] using ih

/-- C8 witness: one stored chunk, thresholds 0 and 1. -/
theorem retrieve_info_monotone_witness :
    (retrieve_info [⟨"c", "t", 1⟩] 1).length ≤ (retrieve_info [⟨"c", "t", 1⟩] 0).length :=
  retrieve_info_monotone [⟨"c", "t", 1⟩] 0 1 (by decide)

/-- Declarative per-record outcome of the ingestion loop: the content a
record contributes to the store (`none` when the record is blank or its
content after the title line is empty). -/
def recordStoredContent (docText : String) : Option String :=
  if pyStrip docText ≠ "" ∧ recordContent docText ≠ "" then
    some (recordContent docText)
  else none

/-- Declarative per-record outcome of the ingestion loop: the title a
record contributes to the metadata (`none` exactly when the record stores
nothing). -/
def recordStoredTitle (docText : String) : Option String :=
  if pyStrip docText ≠ "" ∧ recordContent docText ≠ "" then
    some (recordTitle docText)
  else none

/-- The accumulator loop of `load_knowledge_base` collects exactly the
declarative per-record outcomes, in record order, from any start state. -/
theorem foldl_processDoc_spec :
    ∀ (ds : List String) (st : KBState),
      (ds.foldl processDoc st).texts = st.texts ++ ds.filterMap recordStoredContent
      ∧ (ds.foldl processDoc st).metadatas = st.metadatas ++ ds.filterMap recordStoredTitle
      ∧ (ds.foldl processDoc st).ids = st.ids + (ds.filterMap recordStoredContent).length
  | [], st => by simp
  | d :: ds, st => by
    obtain ⟨h1, h2, h3⟩ := foldl_processDoc_spec ds (processDoc st d)
    rw [List.foldl_cons] at *
    by_cases hb : pyStrip d = ""
    · refine ⟨?_, ?_, ?_⟩ <;>
        simp_all [processDoc, recordStoredContent, recordStoredTitle,
          List.filterMap_cons, hb]
    · by_cases hc : recordContent d = ""
      · refine ⟨?_, ?_, ?_⟩ <;>
          simp_all [processDoc, recordStoredContent, recordStoredTitle,
            List.filterMap_cons, hb, hc]
      · refine ⟨?_, ?_, ?_⟩ <;>
          simp_all [processDoc, recordStoredContent, recordStoredTitle,
            List.filterMap_cons, hb, hc]
        all_goals omega

/-- C9 counterexample: the record "Balanced Diet" is non-blank, yet
ingesting it stores nothing — no content, no title metadata, no id —
because its content after the title line is empty; the claim as stated
says its first line becomes the title metadata. -/
theorem title_only_record_not_stored :
    pyStrip "Balanced Diet" ≠ "" ∧ load_knowledge_base "Balanced Diet" = ⟨[], [], 0⟩ :=
  ⟨by decide, by decide⟩

/-- C9 (amended): ingestion strips the input and splits it at each literal
"---"; a record that is non-blank and whose lines after the title line,
joined and stripped, are non-empty contributes its stripped first line as
title metadata and that joined-and-stripped remainder as stored content,
in record order; blank records and records with empty remaining content
are skipped and contribute nothing. -/
theorem load_knowledge_base_characterization (rawText : String) :
    (load_knowledge_base rawText).texts
      = (pySplit (pyStrip rawText) "---").filterMap recordStoredContent
    ∧ (load_knowledge_base rawText).metadatas
      = (pySplit (pyStrip rawText) "---").filterMap recordStoredTitle
    ∧ (load_knowledge_base rawText).ids
      = ((pySplit (pyStrip rawText) "---").filterMap recordStoredContent).length := by
  have h := foldl_processDoc_spec (pySplit (pyStrip rawText) "---") ⟨[], [], 0⟩
  simpa [load_knowledge_base] using h

/-- C10: a non-blank record whose content after removing the title line is
empty is skipped entirely — the loop body returns the accumulator state
unchanged, so no document, no metadata and no id is added for it. -/
theorem empty_content_record_skipped (st : KBState) (docText : String)
    (hnb : pyStrip docText ≠ "") (hc : recordContent docText = "") :
    processDoc st docText = st := by
  simp [processDoc, hnb, hc]

/-- C10 witness: a record consisting of a title followed by a blank line,
processed from a non-empty accumulator state. -/
theorem empty_content_record_skipped_witness :
    processDoc ⟨["x"], ["t"], 1⟩ "Only Title\n \n" = ⟨["x"], ["t"], 1⟩ :=
  empty_content_record_skipped ⟨["x"], ["t"], 1⟩ "Only Title\n \n" (by decide) (by decide)
